import Mathlib

/-!
Shallow embedding of `fermipy/diffuse/name_policy.py` and `fermipy/wcs_utils.py`.

Conventions of the embedding:

* Python values that flow through the `NameFactory` keyword dictionaries are
  modelled by `Val` (a string, `None`, or a bool); `str(v)` is `render v`.
* A Python keyword dictionary is an association list `Ctx`; `d.copy()` followed
  by `d.update(**kwargs)` is `mergeCtx d kwargs` (entries of the override list
  shadow entries of the base list), and `d[k] = v` is `ctxSet d k v`.
* A Python format string such as the class attribute `dataset_format` is a
  list of tokens (`Tok.lit` for literal text, `Tok.field` for a named
  placeholder); `fmt.format(**d)` is `formatTpl`, which produces
  `Except.error f` exactly when the first missing placeholder is `f` --
  the only exception `str.format` can raise on these plain-name templates
  is `KeyError`.
* Raised Python exceptions are the `Except.error` branch of `Except PyErr _`;
  the Python value `None` returned by the three derivation methods is
  `Option.none`.
* Machine floats are modelled as `ℚ`; the transcendental operations performed
  by numpy/astropy (`log10`, `10 ** x`, frame conversion, projection math,
  coordinate-string parsing) belong to external libraries that this repository
  only calls, and are abstracted as the fields of an `Astro` record that every
  WCS-level definition takes as an explicit argument.
-/

/-- Python exceptions that the embedded code can raise. -/
inductive PyErr where
  | keyError (k : String)
  | indexError
  | attributeError
  | valueError (msg : String)
  | exception (msg : String)
deriving DecidableEq, Repr

/-- A Python value stored in a `NameFactory` keyword dictionary. -/
inductive Val where
  | vstr (s : String)
  | vnone
  | vbool (b : Bool)
deriving DecidableEq, Repr

/-- Python `str(v)`, as used by `str.format` substitution. -/
def render : Val → String
  | .vstr s => s
  | .vnone => "None"
  | .vbool true => "True"
  | .vbool false => "False"

/-- Python truthiness of a `Val` (used by `if kwargs.get('fullpath', False)`). -/
def isTruthy : Val → Bool
  | .vstr s => !(s == "")
  | .vnone => false
  | .vbool b => b

/-- Lift the result of a derivation method (string or Python `None`) to `Val`. -/
def valOfOpt : Option String → Val
  | some s => .vstr s
  | none => .vnone

/-- A Python keyword dictionary: an association list whose head shadows the tail. -/
abbrev Ctx : Type := List (String × Val)

/-- Dictionary lookup `d.get(k)` / `d[k]`-presence test. -/
def ctxGet (c : Ctx) (k : String) : Option Val :=
  (List.find? (fun p => p.1 == k) c).map (fun p => p.2)

/-- The dictionary `B.copy()` followed by `.update(**O)`: entries of `O` win. -/
def mergeCtx (B O : Ctx) : Ctx := O ++ B

/-- The dictionary assignment `d[k] = v`. -/
def ctxSet (c : Ctx) (k : String) (v : Val) : Ctx := (k, v) :: c

/-- One token of a Python format string. -/
inductive Tok where
  | lit (s : String)
  | field (f : String)
deriving DecidableEq, Repr

/-- Python `fmt.format(**c)`: substitutes `str(value)` for each placeholder,
left to right, raising `KeyError f` (`Except.error f`) at the first
placeholder `f` missing from the dictionary. -/
def formatTpl : List Tok → Ctx → Except String String
  | [], _ => .ok ""
  | .lit s :: rest, c => (formatTpl rest c).map (fun r => s ++ r)
  | .field f :: rest, c =>
    match ctxGet c f with
    | none => .error f
    | some v => (formatTpl rest c).map (fun r => render v ++ r)

/-- The placeholder names of a template, in order. -/
def tplFields : List Tok → List String
  | [] => []
  | .lit _ :: rest => tplFields rest
  | .field f :: rest => f :: tplFields rest

/-! Fixed format templates of `NameFactory` (class attributes
`dataset_format`, `component_format`, ..., `fullpath_format`). -/

/-- Class attribute `dataset_format`. -/
def datasetTpl : List Tok :=
  [.field "data_pass", .lit "_", .field "data_ver", .lit "_",
   .field "data_time", .lit "_", .field "evclass"]

/-- Class attribute `component_format`. -/
def componentTpl : List Tok :=
  [.field "zcut", .lit "_", .field "ebin", .lit "_", .field "psftype"]

/-- Class attribute `sourcekey_format`. -/
def sourcekeyTpl : List Tok :=
  [.field "source_name", .lit "_", .field "source_ver"]

/-- Class attribute `galprop_ringkey_format`. -/
def galpropRingkeyTpl : List Tok :=
  [.field "source_name", .lit "_", .field "ringkey"]

/-- Class attribute `galprop_sourcekey_format`. -/
def galpropSourcekeyTpl : List Tok :=
  [.field "source_name", .lit "_", .field "galpropkey"]

/-- Class attribute `merged_sourcekey_format`. -/
def mergedSourcekeyTpl : List Tok :=
  [.field "catalog", .lit "_", .field "rulekey"]

/-- Class attribute `galprop_gasmap_format`. -/
def galpropGasmapTpl : List Tok :=
  [.lit "gasmap/", .field "sourcekey", .lit "_", .field "projtype", .lit "_",
   .field "galprop_run", .lit "_", .field "maptype", .lit ".fits"]

/-- Class attribute `merged_gasmap_format`. -/
def mergedGasmapTpl : List Tok :=
  [.lit "merged_gasmaps/", .field "sourcekey", .lit "_", .field "projtype",
   .lit "_", .field "maptype", .lit ".fits.gz"]

/-- Class attribute `diffuse_template_format`. -/
def diffuseTemplateTpl : List Tok :=
  [.lit "templates/template_", .field "sourcekey", .lit ".fits"]

/-- Class attribute `spectral_template_format`. -/
def spectralTemplateTpl : List Tok :=
  [.lit "templates/spectral_", .field "sourcekey", .lit ".fits"]

/-- Class attribute `srcmdl_xml_format`. -/
def srcmdlXmlTpl : List Tok :=
  [.lit "srcmdls/", .field "sourcekey", .lit ".xml"]

/-- Class attribute `nested_srcmdl_xml_format`. -/
def nestedSrcmdlXmlTpl : List Tok :=
  [.lit "srcmdls/", .field "sourcekey", .lit "_sources.xml"]

/-- Class attribute `ft1file_format`. -/
def ft1fileTpl : List Tok :=
  [.field "dataset", .lit "_", .field "zcut", .lit ".lst"]

/-- Class attribute `ft2file_format`. -/
def ft2fileTpl : List Tok :=
  [.lit "ft2_", .field "data_time", .lit ".lst"]

/-- Class attribute `ltcube_format`. -/
def ltcubeTpl : List Tok :=
  [.lit "lt_cubes/ltcube_", .field "data_time", .lit "_", .field "zcut",
   .lit ".fits"]

/-- Class attribute `ccube_format`. -/
def ccubeTpl : List Tok :=
  [.lit "counts_cubes/ccube_", .field "dataset", .lit "_", .field "component",
   .lit "_", .field "coordsys", .lit ".fits"]

/-- Class attribute `bexpcube_format`. -/
def bexpcubeTpl : List Tok :=
  [.lit "bexp_cubes/bexcube_", .field "dataset", .lit "_", .field "component",
   .lit "_", .field "coordsys", .lit "_", .field "irf_ver", .lit ".fits"]

/-- Class attribute `srcmaps_format`. -/
def srcmapsTpl : List Tok :=
  [.lit "srcmaps/srcmaps_", .field "sourcekey", .lit "_", .field "dataset",
   .lit "_", .field "component", .lit "_", .field "coordsys", .lit "_",
   .field "irf_ver", .lit ".fits"]

/-- Class attribute `mcube_format`. -/
def mcubeTpl : List Tok :=
  [.lit "model_cubes/mcube_", .field "sourcekey", .lit "_", .field "dataset",
   .lit "_", .field "component", .lit "_", .field "coordsys", .lit "_",
   .field "irf_ver", .lit ".fits"]

/-- Class attribute `merged_srcmaps_format`. -/
def mergedSrcmapsTpl : List Tok :=
  [.lit "analysis/model_", .field "modelkey", .lit "/srcmaps_",
   .field "dataset", .lit "_", .field "component", .lit "_",
   .field "coordsys", .lit "_", .field "irf_ver", .lit ".fits"]

/-- Class attribute `master_srcmdl_xml_format`. -/
def masterSrcmdlXmlTpl : List Tok :=
  [.lit "analysis/model_", .field "modelkey", .lit "/srcmdl_",
   .field "modelkey", .lit "_master.xml"]

/-- Class attribute `comp_srcmdl_xml_format`. -/
def compSrcmdlXmlTpl : List Tok :=
  [.lit "analysis/model_", .field "modelkey", .lit "/srcmdl_",
   .field "modelkey", .lit "_", .field "component", .lit ".xml"]

/-- Class attribute `fullpath_format`. -/
def fullpathTpl : List Tok :=
  [.field "basedir", .lit "/", .field "localpath"]

/-! The module-level lookup tables of `name_policy.py`. -/

/-- Module constant `DATASET_DICTIONARY`: reprocessing key to IRF family. -/
def DATASET_DICTIONARY : List (String × String) := [("P8_P302", "P8R2")]

/-- Module constant `EVCLASS_NAME_DICTIONARY`: event-class key to IRF name. -/
def EVCLASS_NAME_DICTIONARY : List (String × String) :=
  [("source", "SOURCE"), ("clean", "CLEAN"), ("ultraclean", "ULTRACLEAN"),
   ("ultracleanveto", "ULTRACLEANVETO")]

/-- Python `d[k]` on a lookup table: `KeyError k` when the key is absent. -/
def dictGet (d : List (String × String)) (k : String) : Except PyErr String :=
  match List.lookup k d with
  | some v => .ok v
  | none => .error (.keyError k)

/-! Every `NameFactory` method below takes the instance base dictionary `B`
(`self.base_dict`) and the call-time keyword dictionary `O` (`**kwargs`). -/

/-- Method `NameFactory.dataset`: formats `dataset_format` over the merged
dictionary, returning Python `None` (here `Option.none`) on `KeyError`. -/
def dataset (B O : Ctx) : Option String :=
  (formatTpl datasetTpl (mergeCtx B O)).toOption

/-- Method `NameFactory.component`, same try/except pattern as `dataset`. -/
def component (B O : Ctx) : Option String :=
  (formatTpl componentTpl (mergeCtx B O)).toOption

/-- Method `NameFactory.sourcekey`, same try/except pattern as `dataset`. -/
def sourcekey (B O : Ctx) : Option String :=
  (formatTpl sourcekeyTpl (mergeCtx B O)).toOption

/-- Method `NameFactory.galprop_ringkey`, same try/except pattern. -/
def galprop_ringkey (B O : Ctx) : Option String :=
  (formatTpl galpropRingkeyTpl (mergeCtx B O)).toOption

/-- Method `NameFactory.galprop_sourcekey`, same try/except pattern. -/
def galprop_sourcekey (B O : Ctx) : Option String :=
  (formatTpl galpropSourcekeyTpl (mergeCtx B O)).toOption

/-- Method `NameFactory.merged_sourcekey`, same try/except pattern. -/
def merged_sourcekey (B O : Ctx) : Option String :=
  (formatTpl mergedSourcekeyTpl (mergeCtx B O)).toOption

/-- Method `NameFactory.fullpath`: formats `fullpath_format` over the base
dictionary updated with the given keywords; a `KeyError` propagates. -/
def fullpath (B kwargs : Ctx) : Except PyErr String :=
  (formatTpl fullpathTpl (mergeCtx B kwargs)).mapError PyErr.keyError

/-- Common tail of every file-path method: a `KeyError` from the format call
propagates; on success, when the call-time `fullpath` flag is truthy the local
path is routed through `NameFactory.fullpath`, otherwise it is returned. -/
def pathTail (B O : Ctx) (r : Except String String) : Except PyErr String :=
  match r with
  | .error k => .error (.keyError k)
  | .ok localpath =>
    if isTruthy ((ctxGet O "fullpath").getD (.vbool false)) then
      fullpath B [("localpath", .vstr localpath)]
    else
      .ok localpath

/-- Method `NameFactory.galprop_gasmap` (formats over the merged dictionary,
no derived fields). -/
def galprop_gasmap (B O : Ctx) : Except PyErr String :=
  pathTail B O (formatTpl galpropGasmapTpl (mergeCtx B O))

/-- Method `NameFactory.merged_gasmap`. -/
def merged_gasmap (B O : Ctx) : Except PyErr String :=
  pathTail B O (formatTpl mergedGasmapTpl (mergeCtx B O))

/-- Method `NameFactory.diffuse_template`. -/
def diffuse_template (B O : Ctx) : Except PyErr String :=
  pathTail B O (formatTpl diffuseTemplateTpl (mergeCtx B O))

/-- Method `NameFactory.spectral_template`. -/
def spectral_template (B O : Ctx) : Except PyErr String :=
  pathTail B O (formatTpl spectralTemplateTpl (mergeCtx B O))

/-- Method `NameFactory.srcmdl_xml`. -/
def srcmdl_xml (B O : Ctx) : Except PyErr String :=
  pathTail B O (formatTpl srcmdlXmlTpl (mergeCtx B O))

/-- Method `NameFactory.nested_srcmdl_xml`. -/
def nested_srcmdl_xml (B O : Ctx) : Except PyErr String :=
  pathTail B O (formatTpl nestedSrcmdlXmlTpl (mergeCtx B O))

/-- Method `NameFactory.master_srcmdl_xml`. -/
def master_srcmdl_xml (B O : Ctx) : Except PyErr String :=
  pathTail B O (formatTpl masterSrcmdlXmlTpl (mergeCtx B O))

/-- The dictionary built by `NameFactory.ft1file` before formatting:
the merged dictionary with `kwargs_copy['dataset'] =
kwargs.get('dataset', self.dataset(**kwargs))`. -/
def ft1fileCtx (B O : Ctx) : Ctx :=
  ctxSet (mergeCtx B O) "dataset" ((ctxGet O "dataset").getD (valOfOpt (dataset B O)))

/-- Method `NameFactory.ft1file`. -/
def ft1file (B O : Ctx) : Except PyErr String :=
  pathTail B O (formatTpl ft1fileTpl (ft1fileCtx B O))

/-- The dictionary built by `NameFactory.ft2file` before formatting.  Note the
source line `kwargs_copy['data_time'] = kwargs.get('data_time',
self.dataset(**kwargs))`: when `data_time` is absent from the call-time
keywords, the slot is filled with the full `dataset` key. -/
def ft2fileCtx (B O : Ctx) : Ctx :=
  ctxSet (mergeCtx B O) "data_time" ((ctxGet O "data_time").getD (valOfOpt (dataset B O)))

/-- Method `NameFactory.ft2file`. -/
def ft2file (B O : Ctx) : Except PyErr String :=
  pathTail B O (formatTpl ft2fileTpl (ft2fileCtx B O))

/-- The dictionary built by `NameFactory.ltcube` before formatting. -/
def ltcubeCtx (B O : Ctx) : Ctx :=
  ctxSet (mergeCtx B O) "dataset" ((ctxGet O "dataset").getD (valOfOpt (dataset B O)))

/-- Method `NameFactory.ltcube`. -/
def ltcube (B O : Ctx) : Except PyErr String :=
  pathTail B O (formatTpl ltcubeTpl (ltcubeCtx B O))

/-- The dictionary built by the methods that derive both `dataset` and
`component` (`ccube`, `bexpcube`, `srcmaps`, `mcube`, `merged_srcmaps`,
`comp_srcmdl_xml`, `generic`): the merged dictionary with
`kwargs_copy['dataset'] = kwargs.get('dataset', self.dataset(**kwargs))` and
`kwargs_copy['component'] = kwargs.get('component', self.component(**kwargs))`. -/
def dsCompCtx (B O : Ctx) : Ctx :=
  ctxSet
    (ctxSet (mergeCtx B O) "dataset" ((ctxGet O "dataset").getD (valOfOpt (dataset B O))))
    "component" ((ctxGet O "component").getD (valOfOpt (component B O)))

/-- Method `NameFactory.ccube`. -/
def ccube (B O : Ctx) : Except PyErr String :=
  pathTail B O (formatTpl ccubeTpl (dsCompCtx B O))

/-- Method `NameFactory.bexpcube`. -/
def bexpcube (B O : Ctx) : Except PyErr String :=
  pathTail B O (formatTpl bexpcubeTpl (dsCompCtx B O))

/-- Method `NameFactory.srcmaps`. -/
def srcmaps (B O : Ctx) : Except PyErr String :=
  pathTail B O (formatTpl srcmapsTpl (dsCompCtx B O))

/-- Method `NameFactory.mcube`. -/
def mcube (B O : Ctx) : Except PyErr String :=
  pathTail B O (formatTpl mcubeTpl (dsCompCtx B O))

/-- Method `NameFactory.merged_srcmaps`. -/
def merged_srcmaps (B O : Ctx) : Except PyErr String :=
  pathTail B O (formatTpl mergedSrcmapsTpl (dsCompCtx B O))

/-- Method `NameFactory.comp_srcmdl_xml`. -/
def comp_srcmdl_xml (B O : Ctx) : Except PyErr String :=
  pathTail B O (formatTpl compSrcmdlXmlTpl (dsCompCtx B O))

/-- Method `NameFactory.generic`: formats the caller-supplied template over
the merged dictionary with derived `dataset` and `component`; no fullpath
branch, a `KeyError` propagates. -/
def generic (input_string : List Tok) (B O : Ctx) : Except PyErr String :=
  (formatTpl input_string (dsCompCtx B O)).mapError PyErr.keyError

/-- Python `s.split(sep)` on character lists (the `'_'` delimiter split used
by `NameFactory.irfs`). -/
def splitChar (sep : Char) : List Char → List (List Char)
  | [] => [[]]
  | c :: rest =>
    let r := splitChar sep rest
    if c == sep then [] :: r
    else
      match r with
      | h :: t => (c :: h) :: t
      | [] => [[c]]

/-- Python `s.split('_')` on strings. -/
def pySplitU (s : String) : List String :=
  (splitChar '_' s.data).map String.mk

/-- Python list indexing `xs[i]`: `IndexError` out of range. -/
def pyIdx {α : Type} (xs : List α) (i : ℕ) : Except PyErr α :=
  match xs.get? i with
  | some v => .ok v
  | none => .error .indexError

/-- The body of `NameFactory.irfs` once `dsval` is computed: calling `.split`
on a Python `None` dataset raises `AttributeError`; otherwise the string is
split on underscores, tokens 0-1 are joined and mapped through
`DATASET_DICTIONARY`, token 3 through `EVCLASS_NAME_DICTIONARY` (each a
`KeyError` on an unknown key, an `IndexError` when the token is missing), and
the result is joined with the call-time `irf_ver` (rendered `None` when
absent). -/
def irfsFromDs (O : Ctx) : Val → Except PyErr String
  | .vstr s =>
    let tokens := pySplitU s
    match pyIdx tokens 0 with
    | .error e => .error e
    | .ok t0 =>
      match pyIdx tokens 1 with
      | .error e => .error e
      | .ok t1 =>
        match dictGet DATASET_DICTIONARY (t0 ++ "_" ++ t1) with
        | .error e => .error e
        | .ok d1 =>
          match pyIdx tokens 3 with
          | .error e => .error e
          | .ok t3 =>
            match dictGet EVCLASS_NAME_DICTIONARY t3 with
            | .error e => .error e
            | .ok e1 =>
              .ok (d1 ++ "_" ++ e1 ++ "_" ++ render ((ctxGet O "irf_ver").getD .vnone))
  | _ => .error PyErr.attributeError

/-- Method `NameFactory.irfs`: takes `dataset` from the call-time keywords or
derives it via `self.dataset(**kwargs)`, then proceeds as `irfsFromDs`. -/
def irfs (B O : Ctx) : Except PyErr String :=
  irfsFromDs O ((ctxGet O "dataset").getD (valOfOpt (dataset B O)))

/-! Embedding of `fermipy/wcs_utils.py`. -/

/-- The mutable fields of an `astropy.wcs.WCS` object that this code reads and
writes (`w.wcs.ctype`, `w.wcs.crval`, `w.wcs.cdelt`, `w.wcs.crpix`); each list
has length `naxis`. -/
structure WCSObj where
  naxis : ℕ
  ctype : List String
  crval : List ℚ
  cdelt : List ℚ
  crpix : List ℚ
deriving DecidableEq, Repr

/-- An `astropy.coordinates.SkyCoord` scalar in one of the two frames this
code constructs: ICRS (equatorial) or Galactic, with degree components. -/
inductive SkyDir where
  | icrs (ra dec : ℚ)
  | galactic (l b : ℚ)
deriving DecidableEq, Repr

/-- The external numpy/astropy operations this layer calls but does not
implement: transcendental functions, frame conversion, projection math and
coordinate-string parsing.  They are abstracted as explicit function
parameters; every theorem below holds for an arbitrary `Astro`. -/
structure Astro where
  log10 : ℚ → ℚ
  pow10 : ℚ → ℚ
  galToIcrs : ℚ × ℚ → ℚ × ℚ
  icrsToGal : ℚ × ℚ → ℚ × ℚ
  world2pix : WCSObj → ℚ × ℚ → ℚ × ℚ
  pix2world : WCSObj → ℚ × ℚ → ℚ × ℚ
  fromPixel : WCSObj → ℚ × ℚ → SkyDir
  parseRadec : String → Except PyErr SkyDir

/-- Property access `skydir.icrs.ra.deg` / `.dec.deg` (frame conversion when
the coordinate is Galactic). -/
def SkyDir.toIcrs (A : Astro) : SkyDir → ℚ × ℚ
  | .icrs ra dec => (ra, dec)
  | .galactic l b => A.galToIcrs (l, b)

/-- Property access `skydir.galactic.l.deg` / `.b.deg`. -/
def SkyDir.toGal (A : Astro) : SkyDir → ℚ × ℚ
  | .icrs ra dec => A.icrsToGal (ra, dec)
  | .galactic l b => (l, b)

/-- Python substring test `pat in hay`. -/
def strContains (hay pat : String) : Bool :=
  (List.range (hay.data.length + 1)).any
    (fun i => (hay.data.drop i).take pat.data.length == pat.data)

/-- Function `create_wcs`: builds a WCS whose first two axes encode the given
frame, projection, pixel scale and reference pixel, raising for a coordinate
system other than `CEL` or `GAL`.  A fresh `pywcs.WCS(naxis=n)` has ctype
empty strings, crval zeros, cdelt ones and crpix zeros; the header round trip
`pywcs.WCS(w.to_header())` preserves these fields and is modelled as the
identity.  With `naxis == 3` and a non-`None` `energies` sequence the third
axis is then set from `energies[0]` and `energies[1]`. -/
def create_wcs (A : Astro) (skydir : SkyDir) (coordsys projection : String)
    (cdelt crpix : ℚ) (naxis : ℕ) (energies : Option (List ℚ)) :
    Except PyErr WCSObj :=
  let w0 : WCSObj :=
    { naxis := naxis
      ctype := List.replicate naxis ""
      crval := List.replicate naxis 0
      cdelt := List.replicate naxis 1
      crpix := List.replicate naxis 0 }
  let step1 : Except PyErr WCSObj :=
    if coordsys == "CEL" then
      let rd := skydir.toIcrs A
      .ok { w0 with
             ctype := (w0.ctype.set 0 ("RA---" ++ projection)).set 1 ("DEC--" ++ projection)
             crval := (w0.crval.set 0 rd.1).set 1 rd.2 }
    else if coordsys == "GAL" then
      let lb := skydir.toGal A
      .ok { w0 with
             ctype := (w0.ctype.set 0 ("GLON-" ++ projection)).set 1 ("GLAT-" ++ projection)
             crval := (w0.crval.set 0 lb.1).set 1 lb.2 }
    else
      .error (PyErr.exception "Unrecognized coordinate system.")
  match step1 with
  | .error e => .error e
  | .ok w1 =>
    let w2 : WCSObj :=
      { w1 with
         crpix := (w1.crpix.set 0 crpix).set 1 crpix
         cdelt := (w1.cdelt.set 0 (-cdelt)).set 1 cdelt }
    if naxis == 3 then
      match energies with
      | some es =>
        match pyIdx es 0 with
        | .error e => .error e
        | .ok e0 =>
          match pyIdx es 1 with
          | .error e => .error e
          | .ok e1 =>
            .ok { w2 with
                   crpix := w2.crpix.set 2 1
                   crval := w2.crval.set 2 (A.pow10 e0)
                   cdelt := w2.cdelt.set 2 (A.pow10 e1 - A.pow10 e0)
                   ctype := w2.ctype.set 2 "Energy" }
      | none => .ok w2
    else
      .ok w2

/-- Function `offset_to_skydir`: maps a tangent-plane offset through a WCS
centered at the given direction via the external `SkyCoord.from_pixel`. -/
def offset_to_skydir (A : Astro) (skydir : SkyDir) (offset_lon offset_lat : ℚ)
    (coordsys projection : String) : Except PyErr SkyDir :=
  match create_wcs A skydir coordsys projection 1 1 2 none with
  | .error e => .error e
  | .ok w => .ok (A.fromPixel w (offset_lon, offset_lat))

/-- Function `skydir_to_pix`: frame detection by substring on `ctype[0]`, then
the external `wcs_world2pix`.  Reading `.ra` on a Galactic `SkyCoord` raises
`AttributeError`. -/
def skydir_to_pix (A : Astro) (skydir : SkyDir) (w : WCSObj) :
    Except PyErr (ℚ × ℚ) :=
  match pyIdx w.ctype 0 with
  | .error e => .error e
  | .ok t0 =>
    if strContains t0 "RA" then
      match skydir with
      | .icrs ra dec => .ok (A.world2pix w (ra, dec))
      | .galactic _ _ => .error PyErr.attributeError
    else if strContains t0 "GLON" then
      .ok (A.world2pix w (skydir.toGal A))
    else
      .error (PyErr.exception "Unrecognized WCS coordinate system.")

/-- Function `pix_to_skydir`: frame detection by substring on `ctype[0]`, then
the external `wcs_pix2world`; the Galactic branch converts to ICRS. -/
def pix_to_skydir (A : Astro) (xpix ypix : ℚ) (w : WCSObj) :
    Except PyErr SkyDir :=
  match pyIdx w.ctype 0 with
  | .error e => .error e
  | .ok t0 =>
    if strContains t0 "RA" then
      let rd := A.pix2world w (xpix, ypix)
      .ok (SkyDir.icrs rd.1 rd.2)
    else if strContains t0 "GLON" then
      let lb := A.pix2world w (xpix, ypix)
      let rd := A.galToIcrs lb
      .ok (SkyDir.icrs rd.1 rd.2)
    else
      .error (PyErr.exception "Unrecognized WCS coordinate system.")

/-- Function `get_coordsys`: `CEL` when `ctype[0]` contains `RA`, `GAL` when
it contains `GLON`, otherwise an unrecognized-coordinate-system error. -/
def get_coordsys (w : WCSObj) : Except PyErr String :=
  match pyIdx w.ctype 0 with
  | .error e => .error e
  | .ok t0 =>
    if strContains t0 "RA" then
      .ok "CEL"
    else if strContains t0 "GLON" then
      .ok "GAL"
    else
      .error (PyErr.exception "Unrecognized WCS coordinate system.")

/-- Function `get_projection`: its body is the same frame detection as
`get_coordsys` -- it returns the coordinate-system tag, not the projection. -/
def get_projection (w : WCSObj) : Except PyErr String :=
  match pyIdx w.ctype 0 with
  | .error e => .error e
  | .ok t0 =>
    if strContains t0 "RA" then
      .ok "CEL"
    else if strContains t0 "GLON" then
      .ok "GAL"
    else
      .error (PyErr.exception "Unrecognized WCS coordinate system.")

/-- A value stored in the configuration mapping read by `get_target_skydir`:
a coordinate string, a coordinate list, or a number. -/
inductive ConfVal where
  | cstr (s : String)
  | clist (xs : List ℚ)
  | cnum (q : ℚ)
deriving DecidableEq, Repr

/-- The configuration mapping of `get_target_skydir`. -/
abbrev Cfg : Type := List (String × ConfVal)

/-- Configuration lookup `config.get(k, None)`; `Option.none` is Python `None`. -/
def cfgGet (c : Cfg) (k : String) : Option ConfVal :=
  (List.find? (fun p => p.1 == k) c).map (fun p => p.2)

/-- The external constructor `SkyCoord(v1, v2, unit=u.deg)` on two
configuration values.  The numeric case is the one the code exercises; for
non-numeric inputs astropy's own parsing applies, modelled as a construction
error. -/
def confSkyCoordDeg : ConfVal → ConfVal → Except PyErr SkyDir
  | .cnum r, .cnum d => .ok (.icrs r d)
  | _, _ => .error (.valueError "SkyCoord input")

/-- The external constructor `SkyCoord(v1, v2, unit=u.deg, frame='galactic')`
followed by `.transform_to('icrs')`, numeric case as in `confSkyCoordDeg`. -/
def confSkyCoordGal (A : Astro) : ConfVal → ConfVal → Except PyErr SkyDir
  | .cnum l, .cnum b =>
    let rd := A.galToIcrs (l, b)
    .ok (.icrs rd.1 rd.2)
  | _, _ => .error (.valueError "SkyCoord input")

/-- The offset branches of `get_target_skydir`:
`offset_to_skydir(ref_skydir, v1, v2, coordsys=cs)[0]`, numeric case as in
`confSkyCoordDeg`. -/
def confOffset (A : Astro) (ref : SkyDir) (v1 v2 : ConfVal) (cs : String) :
    Except PyErr SkyDir :=
  match v1, v2 with
  | .cnum a, .cnum b => offset_to_skydir A ref a b cs "AIT"
  | _, _ => .error (.valueError "offset input")

/-- Function `get_target_skydir`: resolves the target direction from the
configuration mapping by the source's priority chain -- `radec` as a string,
`radec` as a list, `ra`/`dec`, `glon`/`glat`, `offset_ra`/`offset_dec`,
`offset_glon`/`offset_glat` -- falling back to the reference direction, which
defaults to the celestial origin when `None`. -/
def get_target_skydir (A : Astro) (config : Cfg) (ref : Option SkyDir) :
    Except PyErr SkyDir :=
  let ref_skydir := ref.getD (.icrs 0 0)
  match cfgGet config "radec" with
  | some (.cstr s) => A.parseRadec s
  | some (.clist xs) =>
    (match pyIdx xs 0, pyIdx xs 1 with
     | .ok x0, .ok x1 => .ok (SkyDir.icrs x0 x1)
     | .error e, _ => .error e
     | _, .error e => .error e)
  | _ =>
    match cfgGet config "ra", cfgGet config "dec" with
    | some rav, some dv => confSkyCoordDeg rav dv
    | _, _ =>
      match cfgGet config "glon", cfgGet config "glat" with
      | some lv, some bv => confSkyCoordGal A lv bv
      | _, _ =>
        match cfgGet config "offset_ra", cfgGet config "offset_dec" with
        | some ov1, some ov2 => confOffset A ref_skydir ov1 ov2 "CEL"
        | _, _ =>
          match cfgGet config "offset_glon", cfgGet config "offset_glat" with
          | some ov1, some ov2 => confOffset A ref_skydir ov1 ov2 "GAL"
          | _, _ => .ok ref_skydir

/-- Numpy `np.linspace(a, b, n)`: `n` evenly spaced samples from `a` to `b`
inclusive (for `n = 1` the single sample is `a`). -/
def linspace (a b : ℚ) (n : ℕ) : List ℚ :=
  (List.range n).map (fun i => a + (b - a) * i / ((n : ℚ) - 1))

/-- Numpy `0.5 * (xs[1:] + xs[:-1])`: consecutive midpoints. -/
def midpoints (xs : List ℚ) : List ℚ :=
  (xs.zip xs.tail).map (fun p => (p.1 + p.2) / 2)

/-- Function `wcs_to_axes`: bin-edge vectors for the axes of a WCS.  The
third-axis block reads `w.wcs.cdelt[2]` and `w.wcs.crval[2]` unconditionally,
so a 2-axis WCS raises `IndexError` here.  Evaluation order follows the
source: the `x` and `y` edges (reading `npix[0]`, `cdelt[0]`, `npix[1]`,
`cdelt[1]`), then `cdelt[2]`/`crval[2]`, then `npix[2]`. -/
def wcs_to_axes (A : Astro) (w : WCSObj) (npix : List ℕ) :
    Except PyErr (List ℚ × List ℚ × List ℚ) :=
  let np := npix.reverse
  match pyIdx np 0, pyIdx w.cdelt 0 with
  | .error e, _ => .error e
  | _, .error e => .error e
  | .ok n0, .ok c0 =>
    let x := (linspace (-(n0 : ℚ) / 2) ((n0 : ℚ) / 2) (n0 + 1)).map (fun t => t * |c0|)
    match pyIdx np 1, pyIdx w.cdelt 1 with
    | .error e, _ => .error e
    | _, .error e => .error e
    | .ok n1, .ok c1 =>
      let y := (linspace (-(n1 : ℚ) / 2) ((n1 : ℚ) / 2) (n1 + 1)).map (fun t => t * |c1|)
      match pyIdx w.cdelt 2, pyIdx w.crval 2 with
      | .error e, _ => .error e
      | _, .error e => .error e
      | .ok c2, .ok v2 =>
        let cdelt2 := A.log10 ((c2 + v2) / v2)
        match pyIdx np 2 with
        | .error e => .error e
        | .ok n2 =>
          let z := (linspace 0 (n2 : ℚ) (n2 + 1)).map (fun t => t * cdelt2 + A.log10 v2)
          .ok (x, y, z)

/-- Product of a list of extents. -/
def mprod (l : List ℕ) : ℕ := l.foldr (fun a b => a * b) 1

/-- Numpy `np.ravel(np.ones(shape) * arr)` where `arr` is a 1-d vector placed
on the axis `af` positions from the end (`arr[:, None, None]` is `af = 3`,
`arr[None, :, None]` is `af = 2`, `arr[None, None, :]` is `af = 1`), with the
general-broadcasting compatibility rule on that axis. -/
def ravelMul (shape : List ℕ) (af : ℕ) (arr : List ℚ) : Except PyErr (List ℚ) :=
  let m := shape.length
  let j := m - af
  let sj := shape.getD j 1
  let t := arr.length
  if sj == t || sj == 1 || t == 1 then
    let rj := max sj t
    let newShape := shape.set j rj
    let pre := mprod (newShape.take j)
    let post := mprod (newShape.drop (j + 1))
    .ok ((List.range pre).flatMap
      (fun _ => (List.range rj).flatMap
        (fun i => List.replicate post (arr.getD (if t == 1 then 0 else i) 0))))
  else
    .error (.valueError "operands could not be broadcast together")

/-- Numpy `np.vstack` on 1-d rows: all rows must have the same length. -/
def vstack (rows : List (List ℚ)) : Except PyErr (List (List ℚ)) :=
  match rows with
  | [] => .ok []
  | r :: rest =>
    if rest.all (fun q => q.length == r.length) then .ok (r :: rest)
    else .error (.valueError "all the input array dimensions must match")

/-- Function `wcs_to_coords`: the 2-axis branch binds the three results of
`wcs_to_axes` to the two names `y, x`, so any successful `wcs_to_axes` call
ends in an unpacking `ValueError` (and on an actual 2-axis WCS,
`wcs_to_axes` itself raises `IndexError` first); the 3-axis branch binds
`z, y, x` to `wcs_to_axes`' `(x, y, z)` in that order, takes midpoints, and
broadcasts each vector across the grid; any other axis count raises. -/
def wcs_to_coords (A : Astro) (w : WCSObj) (shape : List ℕ) :
    Except PyErr (List (List ℚ)) :=
  if w.naxis == 2 then
    match wcs_to_axes A w shape with
    | .error e => .error e
    | .ok _ => .error (PyErr.valueError "too many values to unpack")
  else if w.naxis == 3 then
    match wcs_to_axes A w shape with
    | .error e => .error e
    | .ok axes =>
      let z := axes.1
      let y := axes.2.1
      let x := axes.2.2
      let x := midpoints x
      let y := midpoints y
      let z := midpoints z
      match ravelMul shape 3 x with
      | .error e => .error e
      | .ok xr =>
        match ravelMul shape 2 y with
        | .error e => .error e
        | .ok yr =>
          match ravelMul shape 1 z with
          | .error e => .error e
          | .ok zr => vstack [xr, yr, zr]
  else
    .error (PyErr.exception ("Wrong number of WCS axes " ++ toString w.naxis))

/-! Helper lemmas about the format machinery. -/

/-- Mapping the success value of an `Except` does not change whether it is an
error. -/
theorem exists_error_map {α β γ : Type} (r : Except γ α) (g : α → β) :
    (∃ k, r.map g = Except.error k) ↔ (∃ k, r = Except.error k) := by
  cases r <;> simp [Except.map]

/-- A format call raises `KeyError` exactly when some placeholder of the
template is absent from the dictionary. -/
theorem formatTpl_error_iff (tpl : List Tok) (c : Ctx) :
    (∃ k, formatTpl tpl c = .error k) ↔ ∃ f ∈ tplFields tpl, ctxGet c f = none := by
  induction tpl with
  | nil => simp [formatTpl, tplFields]
  | cons t rest ih =>
    cases t with
    | lit s =>
      rw [show formatTpl (.lit s :: rest) c
            = (formatTpl rest c).map (fun r => s ++ r) from rfl,
          exists_error_map]
      exact ih
    | field f =>
      cases hg : ctxGet c f with
      | none =>
        constructor
        · intro _
          exact ⟨f, by simp [tplFields], hg⟩
        · intro _
          exact ⟨f, by simp [formatTpl, hg]⟩
      | some v =>
        have hfmt : formatTpl (.field f :: rest) c
            = (formatTpl rest c).map (fun r => render v ++ r) := by
          rw [formatTpl, hg]
        rw [hfmt, exists_error_map, ih]
        constructor
        · rintro ⟨g, hmem, hp⟩
          exact ⟨g, by simp [tplFields, hmem], hp⟩
        · rintro ⟨g, hmem, hp⟩
          have hmem2 : g = f ∨ g ∈ tplFields rest := by simpa [tplFields] using hmem
          rcases hmem2 with h1 | h1
          · rw [h1, hg] at hp
            cases hp
          · exact ⟨g, h1, hp⟩

/-- The try/except wrapper of the derivation methods returns Python `None`
exactly when some placeholder is absent. -/
theorem toOption_none_iff (tpl : List Tok) (c : Ctx) :
    (formatTpl tpl c).toOption = none ↔ ∃ f ∈ tplFields tpl, ctxGet c f = none := by
  rw [← formatTpl_error_iff]
  cases h : formatTpl tpl c <;> simp [Except.toOption]

/-- A missing placeholder makes the common file-path tail raise `KeyError`. -/
theorem pathTail_keyError (B O : Ctx) (fmt : List Tok) (kc : Ctx)
    (h : ∃ f ∈ tplFields fmt, ctxGet kc f = none) :
    ∃ k, pathTail B O (formatTpl fmt kc) = .error (.keyError k) := by
  rcases (formatTpl_error_iff fmt kc).mpr h with ⟨k, hk⟩
  exact ⟨k, by rw [hk]; rfl⟩

/-- A missing placeholder makes a bare (no-fullpath-branch) format raise. -/
theorem mapError_keyError (fmt : List Tok) (kc : Ctx)
    (h : ∃ f ∈ tplFields fmt, ctxGet kc f = none) :
    ∃ k, (formatTpl fmt kc).mapError PyErr.keyError = .error (.keyError k) := by
  rcases (formatTpl_error_iff fmt kc).mpr h with ⟨k, hk⟩
  exact ⟨k, by rw [hk]; rfl⟩

/-- A key present in the overrides is found, with that value, in the merge. -/
theorem ctxGet_mergeCtx_override (B O : Ctx) (k : String) (v : Val)
    (h : ctxGet O k = some v) : ctxGet (mergeCtx B O) k = some v := by
  unfold ctxGet at h ⊢
  unfold mergeCtx
  rw [List.find?_append]
  rcases hf : List.find? (fun p => p.1 == k) O with _ | p
  · rw [hf] at h
    simp at h
  · rw [hf] at h
    rw [hf]
    simpa using h

/-- The fullpath branch of `pathTail` only consults the two dictionaries when
the call-time `fullpath` flag is truthy; with a falsy flag on both sides the
result is independent of them. -/
theorem pathTail_congr (B O B2 O2 : Ctx) (r : Except String String)
    (h : isTruthy ((ctxGet O "fullpath").getD (.vbool false)) = false)
    (h2 : isTruthy ((ctxGet O2 "fullpath").getD (.vbool false)) = false) :
    pathTail B O r = pathTail B2 O2 r := by
  cases r with
  | error k => rfl
  | ok lp => simp [pathTail, h, h2]

/-- A dictionary assignment to a different key does not change a lookup. -/
theorem ctxGet_ctxSet_ne (c : Ctx) (k f : String) (v : Val) (h : (k == f) = false) :
    ctxGet (ctxSet c k v) f = ctxGet c f := by
  unfold ctxGet ctxSet
  rw [List.find?_cons_of_neg]
  simpa using h

/-- A dictionary assignment to a key that is not a placeholder of the
template does not change the format result. -/
theorem formatTpl_ctxSet_not_mem (tpl : List Tok) (c : Ctx) (k : String) (v : Val)
    (h : k ∉ tplFields tpl) : formatTpl tpl (ctxSet c k v) = formatTpl tpl c := by
  induction tpl with
  | nil => rfl
  | cons t rest ih =>
    cases t with
    | lit s =>
      have hr : k ∉ tplFields rest := h
      rw [show formatTpl (.lit s :: rest) (ctxSet c k v)
            = (formatTpl rest (ctxSet c k v)).map (fun r => s ++ r) from rfl,
          show formatTpl (.lit s :: rest) c
            = (formatTpl rest c).map (fun r => s ++ r) from rfl,
          ih hr]
    | field f =>
      have hne : (k == f) = false := by
        simp [tplFields] at h
        simpa using h.1
      have hr : k ∉ tplFields rest := by
        simp [tplFields] at h
        simpa using h.2
      rw [formatTpl, formatTpl, ctxGet_ctxSet_ne c k f v hne]
      cases ctxGet c f with
      | none => rfl
      | some w => rw [ih hr]

/-- Specialisation of `toOption_none_iff` to a two-placeholder key template. -/
theorem two_field_none_iff (f1 f2 : String) (c : Ctx) :
    (formatTpl [.field f1, .lit "_", .field f2] c).toOption = none
    ↔ (ctxGet c f1 = none ∨ ctxGet c f2 = none) := by
  rw [toOption_none_iff]
  simp [tplFields]

/-- Evaluation of a two-placeholder key template on present string fields. -/
theorem two_field_some (f1 f2 : String) (c : Ctx) (s1 s2 : String)
    (h1 : ctxGet c f1 = some (.vstr s1)) (h2 : ctxGet c f2 = some (.vstr s2)) :
    (formatTpl [.field f1, .lit "_", .field f2] c).toOption
    = some (s1 ++ "_" ++ s2) := by
  simp [formatTpl, h1, h2, Except.map, Except.toOption, render,
    String.append_empty, String.append_assoc]

/-- Specialisation of `toOption_none_iff` to the three-placeholder
`component_format`. -/
theorem three_field_none_iff (f1 f2 f3 : String) (c : Ctx) :
    (formatTpl [.field f1, .lit "_", .field f2, .lit "_", .field f3] c).toOption = none
    ↔ (ctxGet c f1 = none ∨ ctxGet c f2 = none ∨ ctxGet c f3 = none) := by
  rw [toOption_none_iff]
  simp [tplFields]

/-- Evaluation of a three-placeholder key template on present string fields. -/
theorem three_field_some (f1 f2 f3 : String) (c : Ctx) (s1 s2 s3 : String)
    (h1 : ctxGet c f1 = some (.vstr s1)) (h2 : ctxGet c f2 = some (.vstr s2))
    (h3 : ctxGet c f3 = some (.vstr s3)) :
    (formatTpl [.field f1, .lit "_", .field f2, .lit "_", .field f3] c).toOption
    = some (s1 ++ "_" ++ s2 ++ "_" ++ s3) := by
  simp [formatTpl, h1, h2, h3, Except.map, Except.toOption, render,
    String.append_empty, String.append_assoc]

/-- Specialisation of `toOption_none_iff` to the four-placeholder
`dataset_format`. -/
theorem four_field_none_iff (f1 f2 f3 f4 : String) (c : Ctx) :
    (formatTpl [.field f1, .lit "_", .field f2, .lit "_", .field f3, .lit "_",
      .field f4] c).toOption = none
    ↔ (ctxGet c f1 = none ∨ ctxGet c f2 = none ∨ ctxGet c f3 = none
        ∨ ctxGet c f4 = none) := by
  rw [toOption_none_iff]
  simp [tplFields]

/-- Evaluation of the four-placeholder key template on present string fields. -/
theorem four_field_some (f1 f2 f3 f4 : String) (c : Ctx) (s1 s2 s3 s4 : String)
    (h1 : ctxGet c f1 = some (.vstr s1)) (h2 : ctxGet c f2 = some (.vstr s2))
    (h3 : ctxGet c f3 = some (.vstr s3)) (h4 : ctxGet c f4 = some (.vstr s4)) :
    (formatTpl [.field f1, .lit "_", .field f2, .lit "_", .field f3, .lit "_",
      .field f4] c).toOption
    = some (s1 ++ "_" ++ s2 ++ "_" ++ s3 ++ "_" ++ s4) := by
  simp [formatTpl, h1, h2, h3, h4, Except.map, Except.toOption, render,
    String.append_empty, String.append_assoc]

/-- C1: for every merged context, `NameFactory.dataset` returns `None` if and
only if at least one of `data_pass`, `data_ver`, `data_time`, `evclass` is
absent from the merged context, and otherwise returns exactly the underscore
join of the four fields, each substituted verbatim; being `Option`-valued,
it never raises on a missing field.  The same silent-`None` behaviour holds
for `component`, `sourcekey`, `galprop_ringkey`, `galprop_sourcekey` and
`merged_sourcekey`, each over its own fixed template. -/
theorem dataset_silent_none_spec : ∀ B O : Ctx,
    ((dataset B O = none ↔
        (ctxGet (mergeCtx B O) "data_pass" = none
          ∨ ctxGet (mergeCtx B O) "data_ver" = none
          ∨ ctxGet (mergeCtx B O) "data_time" = none
          ∨ ctxGet (mergeCtx B O) "evclass" = none))
      ∧ ∀ s1 s2 s3 s4 : String,
          ctxGet (mergeCtx B O) "data_pass" = some (.vstr s1) →
          ctxGet (mergeCtx B O) "data_ver" = some (.vstr s2) →
          ctxGet (mergeCtx B O) "data_time" = some (.vstr s3) →
          ctxGet (mergeCtx B O) "evclass" = some (.vstr s4) →
          dataset B O = some (s1 ++ "_" ++ s2 ++ "_" ++ s3 ++ "_" ++ s4))
  ∧ ((component B O = none ↔
        (ctxGet (mergeCtx B O) "zcut" = none
          ∨ ctxGet (mergeCtx B O) "ebin" = none
          ∨ ctxGet (mergeCtx B O) "psftype" = none))
      ∧ ∀ s1 s2 s3 : String,
          ctxGet (mergeCtx B O) "zcut" = some (.vstr s1) →
          ctxGet (mergeCtx B O) "ebin" = some (.vstr s2) →
          ctxGet (mergeCtx B O) "psftype" = some (.vstr s3) →
          component B O = some (s1 ++ "_" ++ s2 ++ "_" ++ s3))
  ∧ ((sourcekey B O = none ↔
        (ctxGet (mergeCtx B O) "source_name" = none
          ∨ ctxGet (mergeCtx B O) "source_ver" = none))
      ∧ ∀ s1 s2 : String,
          ctxGet (mergeCtx B O) "source_name" = some (.vstr s1) →
          ctxGet (mergeCtx B O) "source_ver" = some (.vstr s2) →
          sourcekey B O = some (s1 ++ "_" ++ s2))
  ∧ ((galprop_ringkey B O = none ↔
        (ctxGet (mergeCtx B O) "source_name" = none
          ∨ ctxGet (mergeCtx B O) "ringkey" = none))
      ∧ ∀ s1 s2 : String,
          ctxGet (mergeCtx B O) "source_name" = some (.vstr s1) →
          ctxGet (mergeCtx B O) "ringkey" = some (.vstr s2) →
          galprop_ringkey B O = some (s1 ++ "_" ++ s2))
  ∧ ((galprop_sourcekey B O = none ↔
        (ctxGet (mergeCtx B O) "source_name" = none
          ∨ ctxGet (mergeCtx B O) "galpropkey" = none))
      ∧ ∀ s1 s2 : String,
          ctxGet (mergeCtx B O) "source_name" = some (.vstr s1) →
          ctxGet (mergeCtx B O) "galpropkey" = some (.vstr s2) →
          galprop_sourcekey B O = some (s1 ++ "_" ++ s2))
  ∧ ((merged_sourcekey B O = none ↔
        (ctxGet (mergeCtx B O) "catalog" = none
          ∨ ctxGet (mergeCtx B O) "rulekey" = none))
      ∧ ∀ s1 s2 : String,
          ctxGet (mergeCtx B O) "catalog" = some (.vstr s1) →
          ctxGet (mergeCtx B O) "rulekey" = some (.vstr s2) →
          merged_sourcekey B O = some (s1 ++ "_" ++ s2)) := by
  intro B O
  refine ⟨⟨?_, ?_⟩, ⟨?_, ?_⟩, ⟨?_, ?_⟩, ⟨?_, ?_⟩, ⟨?_, ?_⟩, ⟨?_, ?_⟩⟩
  · exact four_field_none_iff "data_pass" "data_ver" "data_time" "evclass" (mergeCtx B O)
  · intro s1 s2 s3 s4 h1 h2 h3 h4
    exact four_field_some "data_pass" "data_ver" "data_time" "evclass"
      (mergeCtx B O) s1 s2 s3 s4 h1 h2 h3 h4
  · exact three_field_none_iff "zcut" "ebin" "psftype" (mergeCtx B O)
  · intro s1 s2 s3 h1 h2 h3
    exact three_field_some "zcut" "ebin" "psftype" (mergeCtx B O) s1 s2 s3 h1 h2 h3
  · exact two_field_none_iff "source_name" "source_ver" (mergeCtx B O)
  · intro s1 s2 h1 h2
    exact two_field_some "source_name" "source_ver" (mergeCtx B O) s1 s2 h1 h2
  · exact two_field_none_iff "source_name" "ringkey" (mergeCtx B O)
  · intro s1 s2 h1 h2
    exact two_field_some "source_name" "ringkey" (mergeCtx B O) s1 s2 h1 h2
  · exact two_field_none_iff "source_name" "galpropkey" (mergeCtx B O)
  · intro s1 s2 h1 h2
    exact two_field_some "source_name" "galpropkey" (mergeCtx B O) s1 s2 h1 h2
  · exact two_field_none_iff "catalog" "rulekey" (mergeCtx B O)
  · intro s1 s2 h1 h2
    exact two_field_some "catalog" "rulekey" (mergeCtx B O) s1 s2 h1 h2

/-- Witness for `dataset_silent_none_spec` at a concrete context. -/
theorem dataset_silent_none_spec_witness :
    dataset [("data_pass", Val.vstr "P8"), ("data_ver", Val.vstr "P302")]
        [("data_time", Val.vstr "8years"), ("evclass", Val.vstr "source")]
      = some "P8_P302_8years_source" :=
  (dataset_silent_none_spec
      [("data_pass", Val.vstr "P8"), ("data_ver", Val.vstr "P302")]
      [("data_time", Val.vstr "8years"), ("evclass", Val.vstr "source")]).1.2
    "P8" "P302" "8years" "source" (by rfl) (by rfl) (by rfl) (by rfl)

/-- A call-time context carrying both pre-composed composite keys and the raw
constituent fields, with conflicting values, used to separate `(B, O)`
resolution from resolution over the pre-merged base. -/
def ovrO0 : Ctx :=
  [("dataset", .vstr "DS"), ("component", .vstr "CP"), ("coordsys", .vstr "GAL"),
   ("data_pass", .vstr "P8"), ("data_ver", .vstr "P302"),
   ("data_time", .vstr "8years"), ("evclass", .vstr "source"),
   ("zcut", .vstr "zmax105"), ("ebin", .vstr "E3"), ("psftype", .vstr "PSF3")]

/-- Counterexample to C2 as stated: `ccube` on base `{}` with overrides
`ovrO0` uses the overriding `dataset`/`component` values, while `ccube` on the
pre-merged base with no overrides re-derives both composites from the raw
fields, so the two calls disagree. -/
theorem ccube_merge_counterexample :
    ¬ (ccube [] ovrO0 = ccube (mergeCtx [] ovrO0) []) := by
  intro h
  have h1 : ccube [] ovrO0 = .ok "counts_cubes/ccube_DS_CP_GAL.fits" := by rfl
  have h2 : ccube (mergeCtx [] ovrO0) []
      = .ok "counts_cubes/ccube_P8_P302_8years_source_zmax105_E3_PSF3_GAL.fits" := by rfl
  rw [h1, h2] at h
  exact absurd (Except.ok.inj h) (by decide)

/-- C2 amended: override precedence holds for every shared key, and resolving
with `(B, O)` agrees with resolving over the pre-merged base for every
operation whose template reads only the merged context -- the six key
derivations and `fullpath` unconditionally, and, provided the call-time
overrides carry no truthy `fullpath` flag (that flag is read from the
call-time keywords only), the seven file-path operations that derive nothing
together with `ltcube`, whose dead `dataset` assignment cannot reach its
template (`data_time`/`zcut` only).  The equivalence does not extend to the
operations whose templates consume a field pre-derived from the call-time
keywords (see `ccube_merge_counterexample`). -/
theorem merge_equivalence_amended :
    (∀ B O : Ctx, ∀ k : String, ∀ v : Val,
        ctxGet O k = some v → ctxGet (mergeCtx B O) k = some v)
  ∧ (∀ B O : Ctx,
      dataset B O = dataset (mergeCtx B O) []
      ∧ component B O = component (mergeCtx B O) []
      ∧ sourcekey B O = sourcekey (mergeCtx B O) []
      ∧ galprop_ringkey B O = galprop_ringkey (mergeCtx B O) []
      ∧ galprop_sourcekey B O = galprop_sourcekey (mergeCtx B O) []
      ∧ merged_sourcekey B O = merged_sourcekey (mergeCtx B O) []
      ∧ fullpath B O = fullpath (mergeCtx B O) [])
  ∧ (∀ B O : Ctx,
      isTruthy ((ctxGet O "fullpath").getD (.vbool false)) = false →
      galprop_gasmap B O = galprop_gasmap (mergeCtx B O) []
      ∧ merged_gasmap B O = merged_gasmap (mergeCtx B O) []
      ∧ diffuse_template B O = diffuse_template (mergeCtx B O) []
      ∧ spectral_template B O = spectral_template (mergeCtx B O) []
      ∧ srcmdl_xml B O = srcmdl_xml (mergeCtx B O) []
      ∧ nested_srcmdl_xml B O = nested_srcmdl_xml (mergeCtx B O) []
      ∧ master_srcmdl_xml B O = master_srcmdl_xml (mergeCtx B O) []
      ∧ ltcube B O = ltcube (mergeCtx B O) []) := by
  refine ⟨ctxGet_mergeCtx_override, ?_, ?_⟩
  · intro B O
    exact ⟨rfl, rfl, rfl, rfl, rfl, rfl, rfl⟩
  · intro B O h
    have hnil : isTruthy ((ctxGet ([] : Ctx) "fullpath").getD (.vbool false)) = false := rfl
    have hmem : "dataset" ∉ tplFields ltcubeTpl := by
      simp [tplFields, ltcubeTpl]
    refine ⟨pathTail_congr B O _ _ _ h hnil, pathTail_congr B O _ _ _ h hnil,
      pathTail_congr B O _ _ _ h hnil, pathTail_congr B O _ _ _ h hnil,
      pathTail_congr B O _ _ _ h hnil, pathTail_congr B O _ _ _ h hnil,
      pathTail_congr B O _ _ _ h hnil, ?_⟩
    unfold ltcube ltcubeCtx
    rw [formatTpl_ctxSet_not_mem ltcubeTpl (mergeCtx B O) "dataset" _ hmem,
        formatTpl_ctxSet_not_mem ltcubeTpl (mergeCtx (mergeCtx B O) []) "dataset" _ hmem]
    exact pathTail_congr B O (mergeCtx B O) [] _ h hnil

/-- Witness for `merge_equivalence_amended` at concrete contexts. -/
theorem merge_equivalence_amended_witness :
    ctxGet (mergeCtx [("a", Val.vstr "base")] [("a", Val.vstr "over")]) "a"
      = some (Val.vstr "over")
    ∧ galprop_gasmap [("sourcekey", Val.vstr "sk")] [("projtype", Val.vstr "pt")]
      = galprop_gasmap
          (mergeCtx [("sourcekey", Val.vstr "sk")] [("projtype", Val.vstr "pt")]) []
    ∧ ltcube [("data_time", Val.vstr "8years")] [("zcut", Val.vstr "z100")]
      = ltcube
          (mergeCtx [("data_time", Val.vstr "8years")] [("zcut", Val.vstr "z100")]) [] :=
  ⟨merge_equivalence_amended.1 [("a", Val.vstr "base")] [("a", Val.vstr "over")]
      "a" (Val.vstr "over") (by rfl),
   (merge_equivalence_amended.2.2 [("sourcekey", Val.vstr "sk")]
      [("projtype", Val.vstr "pt")] (by rfl)).1,
   (merge_equivalence_amended.2.2 [("data_time", Val.vstr "8years")]
      [("zcut", Val.vstr "z100")] (by rfl)).2.2.2.2.2.2.2⟩

/-- A base dictionary supplying `data_time` together with the other three
`dataset` constituents. -/
def ft2B0 : Ctx :=
  [("data_pass", .vstr "P8"), ("data_ver", .vstr "P302"),
   ("data_time", .vstr "8years"), ("evclass", .vstr "source")]

/-- Evaluation of `ft2file` at the C3 failing input: `data_time` is present in
the base context with value `8years`, yet with no call-time overrides the
method overwrites the `data_time` slot with the derived `dataset` key and
returns `ft2_P8_P302_8years_source.lst`, not `ft2_8years.lst` -- the line
`kwargs_copy['data_time'] = kwargs.get('data_time', self.dataset(**kwargs))`
consults only the call-time keywords and falls back to the wrong derivation. -/
theorem ft2file_overwrites_base_data_time :
    ctxGet ft2B0 "data_time" = some (.vstr "8years")
    ∧ ft2file ft2B0 [] = .ok "ft2_P8_P302_8years_source.lst"
    ∧ ft2file ft2B0 [] ≠ .ok "ft2_8years.lst" := by
  refine ⟨rfl, rfl, ?_⟩
  intro h
  exact absurd (Except.ok.inj h) (by decide)

/-- C5: `irfs` with `dataset` `P8_P302_8years_source` and `irf_ver` `V1`
returns exactly `P8R2_SOURCE_V1`; and for every call-time `dataset` string
with a fourth underscore-delimited token that is not a key of
`EVCLASS_NAME_DICTIONARY`, `irfs` raises a `KeyError` (either on the
event-class table or, earlier, on the reprocessing table). -/
theorem irfs_spec :
    irfs [] [("dataset", Val.vstr "P8_P302_8years_source"), ("irf_ver", Val.vstr "V1")]
      = .ok "P8R2_SOURCE_V1"
    ∧ ∀ B O : Ctx, ∀ s t3 : String,
        ctxGet O "dataset" = some (.vstr s) →
        (pySplitU s).get? 3 = some t3 →
        List.lookup t3 EVCLASS_NAME_DICTIONARY = none →
        ∃ k, irfs B O = .error (.keyError k) := by
  refine ⟨by rfl, ?_⟩
  intro B O s t3 hds h3 hlk
  have hirfs : irfs B O = irfsFromDs O (Val.vstr s) := by
    unfold irfs
    rw [hds]
    rfl
  rw [hirfs]
  have hlen : 3 < (pySplitU s).length := by
    rcases List.get?_eq_some.mp h3 with ⟨hlt, _⟩
    exact hlt
  have e0 : pyIdx (pySplitU s) 0 = .ok ((pySplitU s).get ⟨0, by omega⟩) := by
    unfold pyIdx
    rw [List.get?_eq_get (by omega)]
  have e1 : pyIdx (pySplitU s) 1 = .ok ((pySplitU s).get ⟨1, by omega⟩) := by
    unfold pyIdx
    rw [List.get?_eq_get (by omega)]
  have e3 : pyIdx (pySplitU s) 3 = .ok t3 := by
    unfold pyIdx
    rw [h3]
  rcases hdk : List.lookup
      ((pySplitU s).get ⟨0, by omega⟩ ++ "_" ++ (pySplitU s).get ⟨1, by omega⟩)
      DATASET_DICTIONARY with _ | d1
  · simp only [List.get_eq_getElem] at hdk
    refine ⟨(pySplitU s).get ⟨0, by omega⟩ ++ "_" ++ (pySplitU s).get ⟨1, by omega⟩, ?_⟩
    simp [irfsFromDs, e0, e1, e3, dictGet, hdk]
  · simp only [List.get_eq_getElem] at hdk
    refine ⟨t3, ?_⟩
    simp [irfsFromDs, e0, e1, e3, dictGet, hdk, hlk]

/-- Witness for `irfs_spec` at the concrete unknown-event-class dataset. -/
theorem irfs_spec_witness :
    ∃ k, irfs [] [("dataset", Val.vstr "P8_P302_8years_foo")]
      = .error (.keyError k) :=
  irfs_spec.2 [] [("dataset", Val.vstr "P8_P302_8years_foo")]
    "P8_P302_8years_foo" "foo" (by rfl) (by rfl) (by rfl)

/-- C4: every file-path-producing operation raises an uncaught `KeyError`
(never a silent `None`; the embedded codomain `Except PyErr String` has no
`None`) whenever some placeholder of its template is absent from its merged
context after derivation (for the deriving operations the `dataset` /
`component` / `data_time` slots are always filled by the derivation, so only
the remaining placeholders can be absent); `create_wcs` raises the
unrecognized-coordinate-system error for every `coordsys` other than `CEL`
and `GAL`; and `get_coordsys`, `skydir_to_pix` and `pix_to_skydir` raise the
unrecognized-WCS-coordinate-system error for every transform whose first axis
label contains neither `RA` nor `GLON`. -/
theorem fail_fast_spec :
    (∀ B O : Ctx, (∃ f ∈ tplFields galpropGasmapTpl, ctxGet (mergeCtx B O) f = none) →
        ∃ k, galprop_gasmap B O = .error (.keyError k))
  ∧ (∀ B O : Ctx, (∃ f ∈ tplFields mergedGasmapTpl, ctxGet (mergeCtx B O) f = none) →
        ∃ k, merged_gasmap B O = .error (.keyError k))
  ∧ (∀ B O : Ctx, (∃ f ∈ tplFields diffuseTemplateTpl, ctxGet (mergeCtx B O) f = none) →
        ∃ k, diffuse_template B O = .error (.keyError k))
  ∧ (∀ B O : Ctx, (∃ f ∈ tplFields spectralTemplateTpl, ctxGet (mergeCtx B O) f = none) →
        ∃ k, spectral_template B O = .error (.keyError k))
  ∧ (∀ B O : Ctx, (∃ f ∈ tplFields srcmdlXmlTpl, ctxGet (mergeCtx B O) f = none) →
        ∃ k, srcmdl_xml B O = .error (.keyError k))
  ∧ (∀ B O : Ctx, (∃ f ∈ tplFields nestedSrcmdlXmlTpl, ctxGet (mergeCtx B O) f = none) →
        ∃ k, nested_srcmdl_xml B O = .error (.keyError k))
  ∧ (∀ B O : Ctx, (∃ f ∈ tplFields masterSrcmdlXmlTpl, ctxGet (mergeCtx B O) f = none) →
        ∃ k, master_srcmdl_xml B O = .error (.keyError k))
  ∧ (∀ B O : Ctx, (∃ f ∈ tplFields ft1fileTpl, ctxGet (ft1fileCtx B O) f = none) →
        ∃ k, ft1file B O = .error (.keyError k))
  ∧ (∀ B O : Ctx, (∃ f ∈ tplFields ft2fileTpl, ctxGet (ft2fileCtx B O) f = none) →
        ∃ k, ft2file B O = .error (.keyError k))
  ∧ (∀ B O : Ctx, (∃ f ∈ tplFields ltcubeTpl, ctxGet (ltcubeCtx B O) f = none) →
        ∃ k, ltcube B O = .error (.keyError k))
  ∧ (∀ B O : Ctx, (∃ f ∈ tplFields ccubeTpl, ctxGet (dsCompCtx B O) f = none) →
        ∃ k, ccube B O = .error (.keyError k))
  ∧ (∀ B O : Ctx, (∃ f ∈ tplFields bexpcubeTpl, ctxGet (dsCompCtx B O) f = none) →
        ∃ k, bexpcube B O = .error (.keyError k))
  ∧ (∀ B O : Ctx, (∃ f ∈ tplFields srcmapsTpl, ctxGet (dsCompCtx B O) f = none) →
        ∃ k, srcmaps B O = .error (.keyError k))
  ∧ (∀ B O : Ctx, (∃ f ∈ tplFields mcubeTpl, ctxGet (dsCompCtx B O) f = none) →
        ∃ k, mcube B O = .error (.keyError k))
  ∧ (∀ B O : Ctx, (∃ f ∈ tplFields mergedSrcmapsTpl, ctxGet (dsCompCtx B O) f = none) →
        ∃ k, merged_srcmaps B O = .error (.keyError k))
  ∧ (∀ B O : Ctx, (∃ f ∈ tplFields compSrcmdlXmlTpl, ctxGet (dsCompCtx B O) f = none) →
        ∃ k, comp_srcmdl_xml B O = .error (.keyError k))
  ∧ (∀ tpl : List Tok, ∀ B O : Ctx,
        (∃ f ∈ tplFields tpl, ctxGet (dsCompCtx B O) f = none) →
        ∃ k, generic tpl B O = .error (.keyError k))
  ∧ (∀ A : Astro, ∀ sd : SkyDir, ∀ cs proj : String, ∀ cd cp : ℚ, ∀ na : ℕ,
        ∀ en : Option (List ℚ), cs ≠ "CEL" → cs ≠ "GAL" →
        create_wcs A sd cs proj cd cp na en
          = .error (.exception "Unrecognized coordinate system."))
  ∧ (∀ w : WCSObj, ∀ t0 : String, pyIdx w.ctype 0 = .ok t0 →
        strContains t0 "RA" = false → strContains t0 "GLON" = false →
        get_coordsys w = .error (.exception "Unrecognized WCS coordinate system.")
        ∧ (∀ A : Astro, ∀ sd : SkyDir,
            skydir_to_pix A sd w
              = .error (.exception "Unrecognized WCS coordinate system."))
        ∧ (∀ A : Astro, ∀ x y : ℚ,
            pix_to_skydir A x y w
              = .error (.exception "Unrecognized WCS coordinate system."))) := by
  refine ⟨?_, ?_, ?_, ?_, ?_, ?_, ?_, ?_, ?_, ?_, ?_, ?_, ?_, ?_, ?_, ?_, ?_, ?_, ?_⟩
  · exact fun B O h => pathTail_keyError B O _ _ h
  · exact fun B O h => pathTail_keyError B O _ _ h
  · exact fun B O h => pathTail_keyError B O _ _ h
  · exact fun B O h => pathTail_keyError B O _ _ h
  · exact fun B O h => pathTail_keyError B O _ _ h
  · exact fun B O h => pathTail_keyError B O _ _ h
  · exact fun B O h => pathTail_keyError B O _ _ h
  · exact fun B O h => pathTail_keyError B O _ _ h
  · exact fun B O h => pathTail_keyError B O _ _ h
  · exact fun B O h => pathTail_keyError B O _ _ h
  · exact fun B O h => pathTail_keyError B O _ _ h
  · exact fun B O h => pathTail_keyError B O _ _ h
  · exact fun B O h => pathTail_keyError B O _ _ h
  · exact fun B O h => pathTail_keyError B O _ _ h
  · exact fun B O h => pathTail_keyError B O _ _ h
  · exact fun B O h => pathTail_keyError B O _ _ h
  · exact fun tpl B O h => mapError_keyError tpl _ h
  · intro A sd cs proj cd cp na en h1 h2
    have e1 : (cs == "CEL") = false := by
      simpa using h1
    have e2 : (cs == "GAL") = false := by
      simpa using h2
    simp [create_wcs, e1, e2]
  · intro w t0 h0 hra hglon
    refine ⟨?_, ?_, ?_⟩
    · simp [get_coordsys, h0, hra, hglon]
    · intro A sd
      simp [skydir_to_pix, h0, hra, hglon]
    · intro A x y
      simp [pix_to_skydir, h0, hra, hglon]

/-- Witness for `fail_fast_spec` at concrete inputs: an empty merged context
misses the `sourcekey` placeholder of `galprop_gasmap`, and `create_wcs`
rejects the coordinate system `FOO`. -/
theorem fail_fast_spec_witness :
    (∃ k, galprop_gasmap [] [] = Except.error (PyErr.keyError k))
    ∧ create_wcs
        { log10 := id, pow10 := id, galToIcrs := id, icrsToGal := id,
          world2pix := fun _ p => p, pix2world := fun _ p => p,
          fromPixel := fun _ _ => SkyDir.icrs 0 0,
          parseRadec := fun _ => Except.error PyErr.attributeError }
        (SkyDir.icrs 0 0) "FOO" "AIT" 1 1 2 none
      = .error (.exception "Unrecognized coordinate system.") :=
  ⟨fail_fast_spec.1 [] [] ⟨"sourcekey", by simp [tplFields, galpropGasmapTpl], rfl⟩,
   fail_fast_spec.2.2.2.2.2.2.2.2.2.2.2.2.2.2.2.2.2.1 _ (SkyDir.icrs 0 0)
     "FOO" "AIT" 1 1 2 none (by decide) (by decide)⟩

/-- A concrete instantiation of the external-library record: identity
transcendentals and projections, used to evaluate the definitions at
concrete inputs. -/
def astro0 : Astro :=
  { log10 := id, pow10 := id, galToIcrs := id, icrsToGal := id,
    world2pix := fun _ p => p, pix2world := fun _ p => p,
    fromPixel := fun _ _ => SkyDir.icrs 0 0,
    parseRadec := fun _ => Except.error PyErr.attributeError }

/-- The WCS produced by `create_wcs` for a celestial AIT transform centered
at the origin with unit pixel scale and reference pixel. -/
def w0cel : WCSObj :=
  { naxis := 2, ctype := ["RA---AIT", "DEC--AIT"], crval := [0, 0],
    cdelt := [-1, 1], crpix := [1, 1] }

/-- Evaluation of `wcs_to_coords` at the C6 failing input: on every 2-axis
transform built by `create_wcs` the call raises `IndexError` (inside
`wcs_to_axes`, which unconditionally reads the third-axis `cdelt`/`crval`)
instead of returning the pixel-center array; and for every axis count other
than 2 or 3 it raises the wrong-number-of-axes error. -/
theorem wcs_to_coords_2axis_raises :
    (∀ A : Astro, ∀ w : WCSObj,
        create_wcs A (.icrs 0 0) "CEL" "AIT" 1 1 2 none = .ok w →
        wcs_to_coords A w [2, 2] = .error .indexError)
    ∧ (∀ A : Astro, ∀ w : WCSObj, ∀ shape : List ℕ,
        w.naxis ≠ 2 → w.naxis ≠ 3 →
        wcs_to_coords A w shape
          = .error (.exception ("Wrong number of WCS axes " ++ toString w.naxis))) := by
  constructor
  · intro A w hw
    have hc : create_wcs A (.icrs 0 0) "CEL" "AIT" 1 1 2 none = .ok w0cel := rfl
    have hww : w0cel = w := Except.ok.inj (hc.symm.trans hw)
    rw [← hww]
    rfl
  · intro A w shape h2 h3
    have e2 : (w.naxis == 2) = false := by
      simpa using h2
    have e3 : (w.naxis == 3) = false := by
      simpa using h3
    simp [wcs_to_coords, e2, e3]

/-- Witness for `wcs_to_coords_2axis_raises` at the concrete transform. -/
theorem wcs_to_coords_2axis_raises_witness :
    wcs_to_coords astro0 w0cel [2, 2] = .error .indexError :=
  wcs_to_coords_2axis_raises.1 astro0 w0cel (by rfl)

/-- C7: when `create_wcs` is called with `naxis = 3`, a valid coordinate
system and a non-`None` energies sequence, the constructed transform's third
axis has reference pixel 1, reference value `10 ** energies[0]`, step
`10 ** energies[1] - 10 ** energies[0]` and axis type `Energy` -- the
logarithmic energy binning encoded through the external antilog `pow10`. -/
theorem create_wcs_energy_axis :
    ∀ A : Astro, ∀ sd : SkyDir, ∀ cs proj : String, ∀ cd cp e0 e1 : ℚ,
    ∀ rest : List ℚ, (cs = "CEL" ∨ cs = "GAL") →
    ∃ w : WCSObj,
      create_wcs A sd cs proj cd cp 3 (some (e0 :: e1 :: rest)) = .ok w
      ∧ w.crpix.get? 2 = some 1
      ∧ w.crval.get? 2 = some (A.pow10 e0)
      ∧ w.cdelt.get? 2 = some (A.pow10 e1 - A.pow10 e0)
      ∧ w.ctype.get? 2 = some "Energy" := by
  intro A sd cs proj cd cp e0 e1 rest hcs
  rcases hcs with h | h
  · subst h
    exact ⟨_, rfl, rfl, rfl, rfl, rfl⟩
  · subst h
    exact ⟨_, rfl, rfl, rfl, rfl, rfl⟩

/-- Witness for `create_wcs_energy_axis` at concrete inputs. -/
theorem create_wcs_energy_axis_witness :
    ∃ w : WCSObj,
      create_wcs astro0 (SkyDir.icrs 0 0) "CEL" "AIT" 1 1 3 (some [2, 3]) = .ok w
      ∧ w.crpix.get? 2 = some 1
      ∧ w.crval.get? 2 = some (astro0.pow10 2)
      ∧ w.cdelt.get? 2 = some (astro0.pow10 3 - astro0.pow10 2)
      ∧ w.ctype.get? 2 = some "Energy" :=
  create_wcs_energy_axis astro0 (SkyDir.icrs 0 0) "CEL" "AIT" 1 1 2 3 []
    (Or.inl rfl)

/-- C9: for a transform built by `create_wcs(center, CEL, AIT, cdelt, crpix)`
with an ICRS center, composing `skydir_to_pix` with `pix_to_skydir` returns
the center exactly, provided the external projection pair inverts at that
point -- the layer itself introduces no discrepancy, so the round trip is
within any tolerance exactly when the external library's is. -/
theorem cel_roundtrip (A : Astro) (ra dec cd cp : ℚ) (w : WCSObj)
    (hw : create_wcs A (.icrs ra dec) "CEL" "AIT" cd cp 2 none = .ok w)
    (hinv : A.pix2world w (A.world2pix w (ra, dec)) = (ra, dec)) :
    ∃ p : ℚ × ℚ, skydir_to_pix A (.icrs ra dec) w = .ok p
      ∧ pix_to_skydir A p.1 p.2 w = .ok (SkyDir.icrs ra dec) := by
  have hc : create_wcs A (.icrs ra dec) "CEL" "AIT" cd cp 2 none
      = .ok { naxis := 2, ctype := ["RA---AIT", "DEC--AIT"], crval := [ra, dec],
              cdelt := [-cd, cd], crpix := [cp, cp] } := rfl
  have hww : ({ naxis := 2, ctype := ["RA---AIT", "DEC--AIT"], crval := [ra, dec],
                cdelt := [-cd, cd], crpix := [cp, cp] } : WCSObj) = w :=
    Except.ok.inj (hc.symm.trans hw)
  rw [← hww] at hinv ⊢
  refine ⟨A.world2pix
      { naxis := 2, ctype := ["RA---AIT", "DEC--AIT"], crval := [ra, dec],
        cdelt := [-cd, cd], crpix := [cp, cp] } (ra, dec), rfl, ?_⟩
  unfold pix_to_skydir
  simp only [Prod.mk.eta]
  rw [hinv]
  rfl

/-- Witness for `cel_roundtrip` with the identity external projections. -/
theorem cel_roundtrip_witness :
    ∃ p : ℚ × ℚ, skydir_to_pix astro0 (.icrs 0 0) w0cel = .ok p
      ∧ pix_to_skydir astro0 p.1 p.2 w0cel = .ok (SkyDir.icrs 0 0) :=
  cel_roundtrip astro0 0 0 1 1 w0cel (by rfl) (by rfl)

/-- C10: `get_projection` returns exactly the same result as `get_coordsys`
on every transform -- the coordinate-system tag, never the projection name
from the axis label. -/
theorem get_projection_refines_get_coordsys :
    (∀ w : WCSObj, get_projection w = get_coordsys w)
    ∧ ∀ w : WCSObj, ∀ s : String,
        get_projection w = .ok s → s = "CEL" ∨ s = "GAL" := by
  constructor
  · intro w
    rfl
  · intro w s h
    unfold get_projection at h
    split at h
    · simp at h
    · split at h
      · exact Or.inl (Except.ok.inj h).symm
      · split at h
        · exact Or.inr (Except.ok.inj h).symm
        · simp at h

/-- Witness for `get_projection_refines_get_coordsys` at the AIT transform:
the result is the frame tag `CEL`, not the projection name `AIT`. -/
theorem get_projection_refines_get_coordsys_witness :
    get_projection w0cel = get_coordsys w0cel
    ∧ ("CEL" = "CEL" ∨ "CEL" = "GAL") :=
  ⟨get_projection_refines_get_coordsys.1 w0cel,
   get_projection_refines_get_coordsys.2 w0cel "CEL" (by rfl)⟩

/-- C8: `get_target_skydir` resolves the target by the priority chain
`radec` (string or list), `ra`/`dec`, `glon`/`glat`,
`offset_ra`/`offset_dec` relative to the reference,
`offset_glon`/`offset_glat` relative to the reference, and otherwise returns
the supplied reference unchanged (the celestial origin when no reference is
supplied).  In particular an explicit `ra`/`dec` pair wins for every
reference and every other configuration content, and the empty configuration
returns the reference. -/
theorem get_target_skydir_priority :
    (∀ A : Astro, ∀ ref : Option SkyDir,
        get_target_skydir A
            [("ra", .cnum (8363 / 100)), ("dec", .cnum (2201 / 100))] ref
          = .ok (.icrs (8363 / 100) (2201 / 100)))
  ∧ (∀ A : Astro, ∀ r : SkyDir, get_target_skydir A [] (some r) = .ok r)
  ∧ (∀ A : Astro, get_target_skydir A [] none = .ok (.icrs 0 0))
  ∧ (∀ A : Astro, ∀ cfg : Cfg, ∀ ref : Option SkyDir, ∀ s : String,
        cfgGet cfg "radec" = some (.cstr s) →
        get_target_skydir A cfg ref = A.parseRadec s)
  ∧ (∀ A : Astro, ∀ cfg : Cfg, ∀ ref : Option SkyDir, ∀ x0 x1 : ℚ, ∀ rest : List ℚ,
        cfgGet cfg "radec" = some (.clist (x0 :: x1 :: rest)) →
        get_target_skydir A cfg ref = .ok (SkyDir.icrs x0 x1))
  ∧ (∀ A : Astro, ∀ cfg : Cfg, ∀ ref : Option SkyDir, ∀ rav dv : ConfVal,
        cfgGet cfg "radec" = none →
        cfgGet cfg "ra" = some rav → cfgGet cfg "dec" = some dv →
        get_target_skydir A cfg ref = confSkyCoordDeg rav dv)
  ∧ (∀ A : Astro, ∀ cfg : Cfg, ∀ ref : Option SkyDir, ∀ lv bv : ConfVal,
        cfgGet cfg "radec" = none →
        (cfgGet cfg "ra" = none ∨ cfgGet cfg "dec" = none) →
        cfgGet cfg "glon" = some lv → cfgGet cfg "glat" = some bv →
        get_target_skydir A cfg ref = confSkyCoordGal A lv bv)
  ∧ (∀ A : Astro, ∀ cfg : Cfg, ∀ ref : Option SkyDir, ∀ ov1 ov2 : ConfVal,
        cfgGet cfg "radec" = none →
        (cfgGet cfg "ra" = none ∨ cfgGet cfg "dec" = none) →
        (cfgGet cfg "glon" = none ∨ cfgGet cfg "glat" = none) →
        cfgGet cfg "offset_ra" = some ov1 → cfgGet cfg "offset_dec" = some ov2 →
        get_target_skydir A cfg ref
          = confOffset A (ref.getD (.icrs 0 0)) ov1 ov2 "CEL")
  ∧ (∀ A : Astro, ∀ cfg : Cfg, ∀ ref : Option SkyDir, ∀ ov1 ov2 : ConfVal,
        cfgGet cfg "radec" = none →
        (cfgGet cfg "ra" = none ∨ cfgGet cfg "dec" = none) →
        (cfgGet cfg "glon" = none ∨ cfgGet cfg "glat" = none) →
        (cfgGet cfg "offset_ra" = none ∨ cfgGet cfg "offset_dec" = none) →
        cfgGet cfg "offset_glon" = some ov1 → cfgGet cfg "offset_glat" = some ov2 →
        get_target_skydir A cfg ref
          = confOffset A (ref.getD (.icrs 0 0)) ov1 ov2 "GAL")
  ∧ (∀ A : Astro, ∀ cfg : Cfg, ∀ ref : Option SkyDir,
        cfgGet cfg "radec" = none →
        (cfgGet cfg "ra" = none ∨ cfgGet cfg "dec" = none) →
        (cfgGet cfg "glon" = none ∨ cfgGet cfg "glat" = none) →
        (cfgGet cfg "offset_ra" = none ∨ cfgGet cfg "offset_dec" = none) →
        (cfgGet cfg "offset_glon" = none ∨ cfgGet cfg "offset_glat" = none) →
        get_target_skydir A cfg ref = .ok (ref.getD (.icrs 0 0))) := by
  refine ⟨?_, ?_, ?_, ?_, ?_, ?_, ?_, ?_, ?_, ?_⟩
  · intro A ref
    rfl
  · intro A r
    rfl
  · intro A
    rfl
  · intro A cfg ref s h
    simp [get_target_skydir, h]
  · intro A cfg ref x0 x1 rest h
    simp [get_target_skydir, h, pyIdx]
  · intro A cfg ref rav dv h0 h1 h2
    simp [get_target_skydir, h0, h1, h2]
  · intro A cfg ref lv bv h0 h1 h2 h3
    rcases h1 with h1 | h1 <;>
      simp [get_target_skydir, h0, h1, h2, h3]
  · intro A cfg ref ov1 ov2 h0 h1 h2 h3 h4
    rcases h1 with h1 | h1 <;> rcases h2 with h2 | h2 <;>
      simp [get_target_skydir, h0, h1, h2, h3, h4]
  · intro A cfg ref ov1 ov2 h0 h1 h2 h3 h4 h5
    rcases h1 with h1 | h1 <;> rcases h2 with h2 | h2 <;>
      rcases h3 with h3 | h3 <;>
      simp [get_target_skydir, h0, h1, h2, h3, h4, h5]
  · intro A cfg ref h0 h1 h2 h3 h4
    rcases h1 with h1 | h1 <;> rcases h2 with h2 | h2 <;>
      rcases h3 with h3 | h3 <;> rcases h4 with h4 | h4 <;>
      simp [get_target_skydir, h0, h1, h2, h3, h4]

/-- Witness for `get_target_skydir_priority`: explicit `ra`/`dec` win over a
Galactic pair also present in the configuration, and the Galactic branch
fires when they are absent. -/
theorem get_target_skydir_priority_witness :
    get_target_skydir astro0
        [("glon", ConfVal.cnum 5), ("glat", ConfVal.cnum 6)] none
      = confSkyCoordGal astro0 (ConfVal.cnum 5) (ConfVal.cnum 6)
    ∧ get_target_skydir astro0
        [("ra", ConfVal.cnum 1), ("glon", ConfVal.cnum 5),
         ("glat", ConfVal.cnum 6), ("dec", ConfVal.cnum 2)] none
      = confSkyCoordDeg (ConfVal.cnum 1) (ConfVal.cnum 2) :=
  ⟨get_target_skydir_priority.2.2.2.2.2.2.1 astro0
      [("glon", ConfVal.cnum 5), ("glat", ConfVal.cnum 6)] none
      (ConfVal.cnum 5) (ConfVal.cnum 6) (by rfl) (Or.inl (by rfl)) (by rfl) (by rfl),
   get_target_skydir_priority.2.2.2.2.2.1 astro0
      [("ra", ConfVal.cnum 1), ("glon", ConfVal.cnum 5),
       ("glat", ConfVal.cnum 6), ("dec", ConfVal.cnum 2)] none
      (ConfVal.cnum 1) (ConfVal.cnum 2) (by rfl) (by rfl) (by rfl)⟩
